import Mathlib

/-!
Verification of the workflow-orchestration and session-tracking engine of the
`tejas_ele` repository (CrewAI database-monitoring flow plus its FastAPI
wrapper).  The definitions below are a shallow embedding of

  * `backend/main.py`        — `generate_session_id`, `create_output_folder`,
                               `DatabaseState`, `DatabaseFlow` (the four flow
                               steps), `kickoff_database_flow`;
  * `backend/app/api.py`     — `active_sessions`, `run_flow_background`,
                               `start_monitoring`, `get_status`, `get_sessions`;
  * `backend/crews/db_agent/database_agent.py`
                             — directory creation and the `query_resolution.json`
                               output file of `DatabaseMonitoringCrew`;
  * `backend/crews/db_reasoning_crew/db_reasoning_crew.py`
                             — the `orchestration_results.json` output file of
                               `DatabaseComplexCrew`.

External collaborators (the LLM crews' internal reasoning, the database, the
network layer) are abstracted as parameters, exactly as the program treats
them: the ticket-analyzer crew is a function from ticket text to the
`route_string` it reports, and each worker crew's `kickoff` either returns a
raw output string or raises an exception carrying a message.
-/

/-! ## Python `strftime` fragment used by `generate_session_id` -/

/-- The character for a single decimal digit, as produced by Python string
formatting. -/
def digitChar (d : Nat) : Char := Char.ofNat (48 + d)

/-- Two-digit zero-padded decimal rendering (`%m`, `%d`, `%H`, `%M`). -/
def pad2 (n : Nat) : List Char := [digitChar (n / 10 % 10), digitChar (n % 10)]

/-- Four-digit zero-padded decimal rendering (`%Y` for years 1000–9999). -/
def pad4 (n : Nat) : List Char := pad2 (n / 100) ++ pad2 (n % 100)

/-- The fields of a Python `datetime.datetime` value that matter here.  The
`second` field is carried to show that `strftime("%Y%m%d_%H%M")` truncates
below minute granularity. -/
structure PyDateTime where
  year : Nat
  month : Nat
  day : Nat
  hour : Nat
  minute : Nat
  second : Nat
deriving DecidableEq, Repr

/-- `now.strftime("%Y%m%d_%H%M")` from `backend/main.py` line 14, for years in
1000–9999 (Python zero-pads `%Y` to four digits there). -/
def strftimeDate (t : PyDateTime) : List Char :=
  pad4 t.year ++ pad2 t.month ++ pad2 t.day ++ ['_'] ++ pad2 t.hour ++ pad2 t.minute

/-- `generate_session_id` from `backend/main.py` lines 11–16:
`f"{date_time}_{random_num}"` where `random_num = random.randint(1000, 9999)`.
The current wall-clock reading and the random draw are explicit arguments. -/
def generate_session_id (now : PyDateTime) (randomNum : Nat) : String :=
  ⟨strftimeDate now ++ ['_'] ++ Nat.toDigits 10 randomNum⟩

/-- The range contract of `random.randint(1000, 9999)`. -/
abbrev validRandom (r : Nat) : Prop := 1000 ≤ r ∧ r ≤ 9999

/-- The minute-granularity creation instant encoded by an identifier, as a
single number ordered like (year, month, day, hour, minute) lexicographically
when all components are in range. -/
def minuteKey (t : PyDateTime) : Nat :=
  (((t.year * 100 + t.month) * 100 + t.day) * 100 + t.hour) * 100 + t.minute

/-- In-range calendar fields (months, days, hours, minutes are two decimal
digits; the year is four decimal digits ≥ 1000 as required by `strftime`). -/
abbrev validDateTime (t : PyDateTime) : Prop :=
  1000 ≤ t.year ∧ t.year ≤ 9999 ∧ t.month < 100 ∧ t.day < 100 ∧
    t.hour < 100 ∧ t.minute < 100

/-! ## Routing (`DatabaseFlow.analyze_ticket`, `backend/main.py` 66–71) -/

/-- The label returned by the `analyze_ticket` router given the
`route_string` reported by the ticket-analyzer crew: the two recognized labels
pass through, anything else falls back to `"default_handler"`. -/
def routeOf (routeString : String) : String :=
  if routeString = "database_crew" then "database_crew"
  else if routeString = "database_complex_crew" then "database_complex_crew"
  else "default_handler"

/-- The labels for which `main.py` declares an `@listen` pipeline:
`execute_db_agent_crew` listens on `"database_crew"` and
`execute_database_complex_crew` listens on `"database_complex_crew"`.
No method listens on `"default_handler"`. -/
def flowListeners : String → Bool := fun label =>
  label = "database_crew" || label = "database_complex_crew"

example : routeOf "database_crew" = "database_crew" := by decide
example : routeOf "anything else" = "default_handler" := by decide
example : flowListeners "default_handler" = false := by decide
example : generate_session_id ⟨2026, 10, 12, 15, 30, 0⟩ 1234 = "20261012_1530_1234" := by decide

/-! ## Filesystem model (the `results/` tree and crew output files) -/

/-- The slice of the filesystem the program touches: `results/{sid}/`
directories, the `results/{sid}/query_resolution.json` files written by
`DatabaseMonitoringCrew`, and the cwd-level `orchestration_results.json`
written by `DatabaseComplexCrew`. -/
structure FS where
  dirs : List String
  resolutions : List (String × String)
  orchestration : Option String
deriving DecidableEq, Repr

/-- The empty filesystem. -/
def FS.empty : FS := ⟨[], [], none⟩

/-- `os.makedirs(f"results/{session_id}", exist_ok=True)` — idempotent
directory creation (`create_output_folder` in `main.py` lines 18–22 and
`DatabaseMonitoringCrew.__init__` line 36). -/
def FS.ensureDir (fs : FS) (sid : String) : FS :=
  if sid ∈ fs.dirs then fs else { fs with dirs := fs.dirs ++ [sid] }

/-- Writing `results/{sid}/query_resolution.json` (the `output_file` of the
`query_resolution` task, `database_agent.py` lines 72–80); a rewrite replaces
the previous content. -/
def FS.writeResolution (fs : FS) (sid content : String) : FS :=
  let repl := fs.resolutions.map fun kv => if kv.1 = sid then (sid, content) else kv
  if (fs.resolutions.lookup sid).isSome then
    { fs with resolutions := repl }
  else
    { fs with resolutions := fs.resolutions ++ [(sid, content)] }

/-- Whether `results/{sid}/query_resolution.json` exists, with its content. -/
def FS.readResolution (fs : FS) (sid : String) : Option String :=
  fs.resolutions.lookup sid

/-! ## Flow state (`DatabaseState`, `backend/main.py` 24–31) -/

/-- The value held in `DatabaseState.crew_result`.  The pydantic field is
declared `dict = {}` but the flow assigns either the crew's raw output string
(success path) or a `{'success': False, 'error': e}` dictionary (exception
path); pydantic does not validate on assignment, so all three shapes occur. -/
inductive CrewResult where
  | empty
  | raw (s : String)
  | failure (error : String)
deriving DecidableEq, Repr

/-- Python truthiness of `self.state.crew_result` as tested by
`finalize_flow` (`if self.state.crew_result:`): the empty dict and the empty
string are falsy; a non-empty string or the two-key failure dict are truthy. -/
def CrewResult.truthy : CrewResult → Bool
  | .empty => false
  | .raw s => s ≠ ""
  | .failure _ => true

/-- `DatabaseState` from `backend/main.py` lines 24–31. -/
structure DatabaseState where
  query_pid : Nat := 0
  status : String := ""
  action_result : String := ""
  crew_result : CrewResult := .empty
  ticket_route : String := ""
  ticket_content : String := ""
  session_id : String := ""
deriving DecidableEq, Repr

/-! ## The flow engine (`DatabaseFlow`, `backend/main.py` 33–141) -/

/-- The environment of one flow execution: the wall clock and random draw
consumed by `generate_session_id`, the content of
`initial_files/ticket_description.txt` (`none` when the file is missing, in
which case `open` raises), the route string the ticket-analyzer crew reports
for a given ticket text, and the outcome of each worker crew's `kickoff`
(`Except.error` models a raised exception). -/
structure FlowEnv where
  now : PyDateTime
  rand : Nat
  ticketFile : Option String
  classify : String → String
  dbAgentRun : Except String String
  complexRun : Except String String

/-- The observable outcome of one `DatabaseFlow.kickoff()`: the return value
of the flow (or the raised exception's message), the final flow state, the
filesystem, the labels of the `@listen` crew methods that were invoked, and
whether the `finalize_flow` join point ran. -/
structure FlowRun where
  result : Except String String
  state : DatabaseState
  fs : FS
  executedPipelines : List String
  finalized : Bool
deriving Repr

/-- `finalize_flow` (`main.py` 129–141): sets `action_result` from the
truthiness of `crew_result` and returns the finalization message. -/
def finalize_flow (st : DatabaseState) : DatabaseState × String :=
  if st.crew_result.truthy then
    ({ st with action_result := "completed" }, "Flow finalized with status: completed")
  else
    ({ st with action_result := "failed" }, "Flow finalized with status: failed")

/-- One complete `DatabaseFlow` execution, seeded with an initial
`ticket_content` (crewai lets `kickoff` inputs pre-populate the state; the
seed is immediately overwritten by `analyze_ticket`, which reads the ticket
from `initial_files/ticket_description.txt`).

Steps, faithful to `main.py`:
* `initialize_jira_automation_flow` (35–42): fresh `session_id`, output
  folder created;
* `analyze_ticket` (45–71, a `@router`): reads the ticket file (raising if it
  is absent), stores its content and the crew's `route_string`, and returns
  one of the three labels;
* `execute_db_agent_crew` (77–99, `@listen "database_crew"`): the crew's
  constructor re-creates the output folder, `kickoff` writes
  `query_resolution.json` on success; on exception the method records a
  failure dict and re-raises with a wrapped message;
* `execute_database_complex_crew` (101–125, `@listen
  "database_complex_crew"`): same shape, but the crew writes only
  `orchestration_results.json` in the working directory;
* `finalize_flow` (129–141, `@listen or_(...)`): runs only after one of the
  two crew methods returns normally.  No method listens on
  `"default_handler"`, so that label ends the flow after the router. -/
def runDatabaseFlow (env : FlowEnv) (seedTicket : String) (fs0 : FS) : FlowRun :=
  let sid := generate_session_id env.now env.rand
  let fs1 := fs0.ensureDir sid
  let st1 : DatabaseState := { session_id := sid, ticket_content := seedTicket }
  match env.ticketFile with
  | none =>
      { result := .error "FileNotFoundError: initial_files/ticket_description.txt",
        state := st1, fs := fs1, executedPipelines := [], finalized := false }
  | some content =>
      let routeString := env.classify content
      let st3 := { st1 with ticket_content := content, ticket_route := routeString }
      let label := routeOf routeString
      if label = "database_crew" then
        let fs2 := fs1.ensureDir sid
        match env.dbAgentRun with
        | .ok raw =>
            let fs3 := fs2.writeResolution sid raw
            let st4 := { st3 with crew_result := .raw raw, status := "crew_executed" }
            let (st5, msg) := finalize_flow st4
            { result := .ok msg, state := st5, fs := fs3,
              executedPipelines := ["database_crew"], finalized := true }
        | .error e =>
            let st4 := { st3 with crew_result := .failure e }
            { result := .error ("Failed to execute database monitoring crew: " ++ e),
              state := st4, fs := fs2,
              executedPipelines := ["database_crew"], finalized := false }
      else if label = "database_complex_crew" then
        match env.complexRun with
        | .ok raw =>
            let fs2 := { fs1 with orchestration := some raw }
            let st4 := { st3 with crew_result := .raw raw, status := "crew_executed" }
            let (st5, msg) := finalize_flow st4
            { result := .ok msg, state := st5, fs := fs2,
              executedPipelines := ["database_complex_crew"], finalized := true }
        | .error e =>
            let st4 := { st3 with crew_result := .failure e }
            { result := .error ("Failed to execute database complex crew: " ++ e),
              state := st4, fs := fs1,
              executedPipelines := ["database_complex_crew"], finalized := false }
      else
        { result := .ok label, state := st3, fs := fs1,
          executedPipelines := [], finalized := false }

/-! ## Kickoff wrappers (`backend/main.py` 143–165 and the API's entry point) -/

/-- The dictionary returned by `kickoff_database_flow`: on success
`{'success': True, 'flow_result': ..., 'final_state': ...}`, on a caught
exception `{'success': False, 'error': str(e)}` (each with its fixed
`message`). -/
inductive KickoffResult where
  | ok (flow_result : String) (final_state : DatabaseState)
  | err (error : String)
deriving DecidableEq, Repr

/-- The `success` flag of the returned dictionary. -/
def KickoffResult.successFlag : KickoffResult → Bool
  | .ok _ _ => true
  | .err _ => false

/-- The `error` entry of the returned dictionary, when present. -/
def KickoffResult.errorMsg : KickoffResult → Option String
  | .ok _ _ => none
  | .err e => some e

/-- `kickoff_database_flow` (`main.py` 147–165): runs the flow and catches
every exception, folding it into a `success: False` dictionary — this wrapper
itself never raises. -/
def kickoff_database_flow (env : FlowEnv) (fs : FS) : KickoffResult × FS :=
  let run := runDatabaseFlow env "" fs
  match run.result with
  | .ok r => (.ok r run.state, run.fs)
  | .error e => (.err e, run.fs)

/-- Modelled from the spec: `kickoff_database_flow_with_ticket`, imported and
called by `backend/app/api.py` (lines 12 and 52), is not present under `src/`
— only `kickoff_database_flow` is.  Per the spec's Submit interface it
"accepts ticket text" and hands it to the flow; like `kickoff_database_flow`
it wraps the flow execution and converts any raised exception into a
`success: False` dictionary.  The ticket text seeds the flow state's
`ticket_content`; `analyze_ticket` then overwrites that seed with the content
of `initial_files/ticket_description.txt`. -/
def kickoff_database_flow_with_ticket (ticket_content : String) (env : FlowEnv)
    (fs : FS) : KickoffResult × FS :=
  let run := runDatabaseFlow env ticket_content fs
  match run.result with
  | .ok r => (.ok r run.state, run.fs)
  | .error e => (.err e, run.fs)

/-! ## Session registry (`active_sessions` in `backend/app/api.py`) -/

/-- The status strings ever assigned to `active_sessions[sid]["status"]`:
`"running"` (line 47), `"completed"` (line 55), `"failed"` (line 62). -/
inductive RegStatus where
  | running
  | completed
  | failed
deriving DecidableEq, Repr

/-- The status string stored in the session dictionary. -/
def RegStatus.toStr : RegStatus → String
  | .running => "running"
  | .completed => "completed"
  | .failed => "failed"

/-- One value of the `active_sessions` dictionary (`api.py` 46–65): the keys
`status`, `stage`, `result`, `error`, `started_at`, `completed_at`. -/
structure SessionRecord where
  status : RegStatus
  stage : String
  result : Option KickoffResult
  error : Option String
  started_at : String
  completed_at : Option String
deriving DecidableEq, Repr

/-- The in-memory `active_sessions` dictionary, as an insertion-ordered
association list (Python dicts preserve insertion order, and assigning to an
existing key keeps its position). -/
abbrev Registry := List (String × SessionRecord)

/-- `active_sessions[sid] = {...}` — insert or silently replace. -/
def Registry.set (reg : Registry) (sid : String) (rec : SessionRecord) : Registry :=
  if (List.lookup sid reg).isSome then
    reg.map fun kv => if kv.1 = sid then (sid, rec) else kv
  else
    reg ++ [(sid, rec)]

/-- Lookup (`sid in active_sessions` / `active_sessions[sid]`). -/
def Registry.find (reg : Registry) (sid : String) : Option SessionRecord :=
  List.lookup sid reg

/-- `active_sessions[sid].update({...})` on an existing record. -/
def Registry.modify (reg : Registry) (sid : String)
    (f : SessionRecord → SessionRecord) : Registry :=
  reg.map fun kv => if kv.1 = sid then (sid, f kv.2) else kv

/-! ## Background runner (`run_flow_background`, `api.py` 43–65) -/

/-- Lines 46–50 of `api.py`: the unconditional assignment
`active_sessions[session_id] = {"status": "running", "stage": "initializing",
"started_at": ...}` that registers a session — it inserts or silently
replaces whatever record the identifier already had. -/
def registerRunning (reg : Registry) (sid startedAt : String) : Registry :=
  reg.set sid
    { status := .running, stage := "initializing", result := none,
      error := none, started_at := startedAt, completed_at := none }

/-- `run_flow_background` (`api.py` 43–65).  `startedAt`/`completedAt` are the
two `datetime.now().isoformat()` readings.  Because
`kickoff_database_flow_with_ticket` catches every exception inside itself
(mirroring `kickoff_database_flow`), the `except` branch of
`run_flow_background` (lines 60–65, which would set `status: "failed"` and
`error`) cannot fire: the session is always marked `"completed"`, with the
kickoff dictionary — success-shaped or failure-shaped — as its `result`. -/
def run_flow_background (sid ticket_content startedAt completedAt : String)
    (env : FlowEnv) (reg : Registry) (fs : FS) : Registry × FS :=
  let reg1 := registerRunning reg sid startedAt
  let (kres, fs') := kickoff_database_flow_with_ticket ticket_content env fs
  let reg2 := reg1.modify sid fun r =>
    { r with status := .completed, stage := "finalized",
             result := some kres, completed_at := some completedAt }
  (reg2, fs')

/-- The `except` branch of `run_flow_background` (`api.py` 60–65), as the
registry operation it would perform if the kickoff call could raise:
`update({"status": "failed", "error": ..., "completed_at": ...})`. -/
def markFailed (reg : Registry) (sid errMsg completedAt : String) : Registry :=
  reg.modify sid fun r =>
    { r with status := .failed, error := some errMsg,
             completed_at := some completedAt }

/-! ## Submit endpoint (`start_monitoring`, `api.py` 67–81) -/

/-- The JSON body returned by `POST /start-monitoring`. -/
structure StartResponse where
  session_id : String
  status : String
  message : String
deriving DecidableEq, Repr

/-- A queued `BackgroundTasks.add_task(run_flow_background, sid, ticket)`
call: recorded, not yet executed, when the response is returned. -/
structure ScheduledTask where
  session_id : String
  ticket_content : String
deriving DecidableEq, Repr

/-- `start_monitoring` (`api.py` 67–81): generates a session id, schedules the
background task, and returns at once.  It touches neither `active_sessions`
nor the filesystem; the returned registry and filesystem are the inputs,
unchanged, and the task list records what will run later. -/
def start_monitoring (ticket_content : String) (now : PyDateTime) (rand : Nat)
    (reg : Registry) (fs : FS) :
    StartResponse × ScheduledTask × Registry × FS :=
  let sid := generate_session_id now rand
  (⟨sid, "started", "Flow started successfully"⟩, ⟨sid, ticket_content⟩, reg, fs)

/-! ## Status endpoint (`get_status`, `api.py` 83–112) -/

/-- The `result` payload of a status response: the kickoff dictionary when the
session was found in `active_sessions`, or `{"data": <file content>}` when it
was reconstructed from `results/{sid}/query_resolution.json`. -/
inductive ResultPayload where
  | flow (r : KickoffResult)
  | data (raw : String)
deriving DecidableEq, Repr

/-- The `SessionStatus` response body (`api.py` 34–41). -/
structure SessionStatusResponse where
  session_id : String
  status : String
  stage : String
  result : Option ResultPayload
  error : Option String
  started_at : String
  completed_at : Option String
deriving DecidableEq, Repr

/-- The result of `GET /status/{session_id}`: a body or HTTP 404. -/
inductive StatusResponse where
  | ok (body : SessionStatusResponse)
  | notFound
deriving DecidableEq, Repr

/-- `get_status` (`api.py` 83–112): consult `active_sessions` first; if the
identifier is absent, fall back to `results/{sid}/query_resolution.json`;
otherwise 404. -/
def get_status (reg : Registry) (fs : FS) (sid : String) : StatusResponse :=
  match reg.find sid with
  | some r =>
      .ok ⟨sid, r.status.toStr, r.stage, r.result.map .flow, r.error,
           r.started_at, r.completed_at⟩
  | none =>
      match fs.readResolution sid with
      | some content =>
          .ok ⟨sid, "completed", "finalized", some (.data content), none,
               "unknown", some "unknown"⟩
      | none => .notFound

/-! ## List endpoint (`get_sessions`, `api.py` 114–158) -/

/-- Python code-point comparison of character sequences (`str` `<`),
lexicographic. -/
def charListLt : List Char → List Char → Bool
  | [], [] => false
  | [], _ :: _ => true
  | _ :: _, [] => false
  | a :: as, b :: bs => a < b || (a = b && charListLt as bs)

/-- Python `a < b` on strings. -/
def pyStrLt (a b : String) : Bool := charListLt a.data b.data

/-- Python slicing `s[a:b]` on a character sequence (never raises; short
strings yield short slices). -/
def pySlice (s : List Char) (a b : Nat) : String := ⟨(s.drop a).take (b - a)⟩

/-- Python `split("_")`. -/
def splitOnUnderscore : List Char → List (List Char)
  | [] => [[]]
  | c :: rest =>
    let r := splitOnUnderscore rest
    if c = '_' then [] :: r
    else
      match r with
      | h :: t => (c :: h) :: t
      | [] => [[c]]

/-- Lines 135–146 of `api.py`: recover an ISO timestamp from the minute
prefix of a session identifier; the `except` arm yields `"unknown"`, and the
only statement that can raise is the `[1]` index when the identifier contains
no underscore. -/
def parseStartedAt (sid : String) : String :=
  match splitOnUnderscore sid.data with
  | datePart :: timePart :: _ =>
      pySlice datePart 0 4 ++ "-" ++ pySlice datePart 4 6 ++ "-" ++
        pySlice datePart 6 8 ++ "T" ++ pySlice timePart 0 2 ++ ":" ++
        pySlice timePart 2 4 ++ ":00"
  | _ => "unknown"

/-- One element of the `sessions` array returned by `GET /sessions`. -/
structure SessionListEntry where
  session_id : String
  status : String
  started_at : String
  completed_at : Option String
deriving DecidableEq, Repr

/-- The active part of the listing (`api.py` 120–126), in dictionary
(insertion) order. -/
def sessionsOfRegistry (reg : Registry) : List SessionListEntry :=
  reg.map fun kv => ⟨kv.1, kv.2.status.toStr, kv.2.started_at, kv.2.completed_at⟩

/-- The historical part (`api.py` 129–153): every `results/*/` directory whose
identifier is not an active session and which contains
`query_resolution.json`, listed as completed with the identifier-derived
timestamp. -/
def historicalSessions (reg : Registry) (fs : FS) : List SessionListEntry :=
  (fs.dirs.filter fun sid =>
      (reg.find sid).isNone && (fs.readResolution sid).isSome).map
    fun sid => ⟨sid, "completed", parseStartedAt sid, some (parseStartedAt sid)⟩

/-- The order realized by `sessions.sort(key=..., reverse=True)`: `a` may
come before `b` exactly when `a.started_at` is not code-point-below
`b.started_at` (larger strings first; CPython's sort is stable and consults
only `<` on the keys).  `sessionBefore a b ↔ b.started_at ≤ a.started_at` in
the canonical `String` order is proved below (`sessionBefore_iff`). -/
def sessionBefore (a b : SessionListEntry) : Prop :=
  pyStrLt a.started_at b.started_at = false

instance sessionBeforeDec : DecidableRel sessionBefore := fun _ _ =>
  instDecidableEqBool _ _

/-- `get_sessions` (`api.py` 114–158): concatenate active and historical
entries, then stably sort by `started_at`, newest first (Python `list.sort`
with `reverse=True` is a stable descending sort; `insertionSort` with
`sessionBefore` realizes exactly that order). -/
def get_sessions (reg : Registry) (fs : FS) : List SessionListEntry :=
  (sessionsOfRegistry reg ++ historicalSessions reg fs).insertionSort sessionBefore

/-! ## Derived notions used in the statements -/

/-- A terminal registry status. -/
def RegStatus.isTerminal : RegStatus → Bool
  | .running => false
  | .completed => true
  | .failed => true

/-- Progress rank of a registry status: the one non-terminal status precedes
the two terminal ones. -/
def RegStatus.rank : RegStatus → Nat
  | .running => 0
  | .completed => 1
  | .failed => 1

/-- A well-formed registry record: a `completed` record carries its result, a
`failed` record carries its error. -/
def WFRecord (r : SessionRecord) : Prop :=
  (r.status = .completed → r.result.isSome) ∧ (r.status = .failed → r.error.isSome)

/-- Every record of the registry is well-formed. -/
def WFRegistry (reg : Registry) : Prop :=
  ∀ sid rec, reg.find sid = some rec → WFRecord rec

/-! ## Concrete scenario values used by the counterexamples -/

/-- A flow environment in which the ticket-analyzer crew reports a route
string that matches no known handler. -/
def envUnrecognized : FlowEnv :=
  { now := ⟨2026, 10, 12, 9, 30, 0⟩, rand := 4321,
    ticketFile := some "please advise on the weather",
    classify := fun _ => "general_inquiry",
    dbAgentRun := .ok "RAW", complexRun := .ok "RAW2" }

/-- A flow environment routed to the database crew whose kickoff succeeds;
the flow's internal `generate_session_id` draw is 2222. -/
def envDbOk : FlowEnv :=
  { now := ⟨2026, 10, 12, 10, 0, 0⟩, rand := 2222,
    ticketFile := some "long running query on testdb",
    classify := fun _ => "database_crew",
    dbAgentRun := .ok "RAW", complexRun := .ok "X" }

/-- A flow environment routed to the database crew whose kickoff raises. -/
def envDbErr : FlowEnv :=
  { now := ⟨2026, 10, 12, 11, 0, 0⟩, rand := 3333,
    ticketFile := some "long running query on testdb",
    classify := fun _ => "database_crew",
    dbAgentRun := .error "boom", complexRun := .ok "X" }

/-- A registry holding one active session: its identifier embeds creation
minute 10:00, but its background run only started at 10:05:30. -/
def regListDemo : Registry :=
  [("20261012_1000_1111",
    ⟨.running, "initializing", none, none, "2026-10-12T10:05:30.123456", none⟩)]

/-- A store holding one historical session created at 10:03. -/
def fsListDemo : FS :=
  ⟨["20261012_1003_2222"], [("20261012_1003_2222", "JSON")], none⟩

/-- A registry holding one completed session record. -/
def regCompletedDemo : Registry :=
  [("S", ⟨.completed, "finalized", some (.ok "r" {}), none, "T1", some "T2"⟩)]

/-! ## Helper lemmas: association-list operations -/


theorem lookup_map_modify (reg : Registry) (sid : String)
    (f : SessionRecord → SessionRecord) :
    List.lookup sid (reg.map fun kv => if kv.1 = sid then (sid, f kv.2) else kv) =
      (List.lookup sid reg).map f := by
  induction reg with
  | nil => simp
  | cons kv rest ih =>
    obtain ⟨k, v⟩ := kv
    by_cases hk : k = sid
    · subst hk
      simp [List.lookup_cons, ih]
    · have hne : (sid == k) = false := by
        simp only [beq_eq_false_iff_ne, ne_eq]
        exact fun he => hk he.symm
      simp [List.lookup_cons, hk, hne, ih]

theorem lookup_map_other (reg : Registry) (sid sid' : String)
    (g : String × SessionRecord → String × SessionRecord) (h : sid' ≠ sid)
    (hg : ∀ kv, (g kv).1 = sid) :
    List.lookup sid' (reg.map fun kv => if kv.1 = sid then g kv else kv) =
      List.lookup sid' reg := by
  induction reg with
  | nil => simp
  | cons kv rest ih =>
    obtain ⟨k, v⟩ := kv
    by_cases hk : k = sid
    · subst hk
      have hpair : g (k, v) = (k, (g (k, v)).2) := by
        cases hgv : g (k, v) with
        | mk gk gv => simpa [hgv] using hg (k, v)
      have hne : (sid' == k) = false := by
        simp only [beq_eq_false_iff_ne, ne_eq]
        exact h
      rw [List.map_cons, if_pos rfl, hpair, List.lookup_cons, List.lookup_cons]
      simp [hne, ih]
    · by_cases he : sid' = k
      · subst he
        simp [List.lookup_cons, hk]
      · have hne : (sid' == k) = false := by
          simp only [beq_eq_false_iff_ne, ne_eq]
          exact he
        simp [List.lookup_cons, hk, hne, ih]

theorem lookup_map_replace (reg : Registry) (sid : String) (rec : SessionRecord)
    (h : (List.lookup sid reg).isSome) :
    List.lookup sid (reg.map fun kv => if kv.1 = sid then (sid, rec) else kv) = some rec := by
  have := lookup_map_modify reg sid (fun _ => rec)
  cases hl : List.lookup sid reg with
  | none => rw [hl] at h; simp at h
  | some v => rw [hl] at this; simpa using this

theorem Registry.find_set_self (reg : Registry) (sid : String) (rec : SessionRecord) :
    (reg.set sid rec).find sid = some rec := by
  unfold Registry.set Registry.find
  by_cases h : (List.lookup sid reg).isSome
  · simpa [h] using lookup_map_replace reg sid rec h
  · have h' : List.lookup sid reg = none := by
      cases hh : List.lookup sid reg
      · rfl
      · simp [hh] at h
    simp [h, List.lookup_append, h']

theorem Registry.find_set_other (reg : Registry) (sid sid' : String)
    (rec : SessionRecord) (h : sid' ≠ sid) :
    (reg.set sid rec).find sid' = reg.find sid' := by
  unfold Registry.set Registry.find
  by_cases hs : (List.lookup sid reg).isSome
  · have := lookup_map_other reg sid sid' (fun _ => (sid, rec)) h (fun _ => rfl)
    simpa [hs] using this
  · have hne : (sid' == sid) = false := by
      simp only [beq_eq_false_iff_ne, ne_eq]
      exact h
    simp [hs, List.lookup_append, hne, List.lookup_cons]

theorem Registry.find_modify_self (reg : Registry) (sid : String)
    (f : SessionRecord → SessionRecord) :
    (reg.modify sid f).find sid = (reg.find sid).map f :=
  lookup_map_modify reg sid f

theorem Registry.find_modify_other (reg : Registry) (sid sid' : String)
    (f : SessionRecord → SessionRecord) (h : sid' ≠ sid) :
    (reg.modify sid f).find sid' = reg.find sid' := by
  unfold Registry.modify Registry.find
  refine (lookup_map_other reg sid sid' (fun kv => (sid, f kv.2)) h fun _ => rfl).trans ?_
  rfl

theorem lookup_str_map_modify (l : List (String × String)) (sid : String)
    (c : String) :
    List.lookup sid (l.map fun kv => if kv.1 = sid then (sid, c) else kv) =
      (List.lookup sid l).map fun _ => c := by
  induction l with
  | nil => simp
  | cons kv rest ih =>
    obtain ⟨k, v⟩ := kv
    by_cases hk : k = sid
    · subst hk
      simp [List.lookup_cons, ih]
    · have hne : (sid == k) = false := by
        simp only [beq_eq_false_iff_ne, ne_eq]
        exact fun he => hk he.symm
      simp [List.lookup_cons, hk, hne, ih]

theorem lookup_str_map_other (l : List (String × String)) (sid sid' c : String)
    (h : sid' ≠ sid) :
    List.lookup sid' (l.map fun kv => if kv.1 = sid then (sid, c) else kv) =
      List.lookup sid' l := by
  induction l with
  | nil => simp
  | cons kv rest ih =>
    obtain ⟨k, v⟩ := kv
    by_cases hk : k = sid
    · subst hk
      have hne : (sid' == k) = false := by
        simp only [beq_eq_false_iff_ne, ne_eq]
        exact h
      simp [List.lookup_cons, hne, ih]
    · by_cases he : sid' = k
      · subst he
        simp [List.lookup_cons, hk]
      · have hne : (sid' == k) = false := by
          simp only [beq_eq_false_iff_ne, ne_eq]
          exact he
        simp [List.lookup_cons, hk, hne, ih]

theorem FS.readResolution_write_self (fs : FS) (sid c : String) :
    (fs.writeResolution sid c).readResolution sid = some c := by
  unfold FS.writeResolution FS.readResolution
  by_cases h : (fs.resolutions.lookup sid).isSome
  · cases hl : fs.resolutions.lookup sid with
    | none => rw [hl] at h; simp at h
    | some v =>
      have := lookup_str_map_modify fs.resolutions sid c
      rw [hl] at this
      simpa [h] using this
  · have h' : fs.resolutions.lookup sid = none := by
      cases hh : fs.resolutions.lookup sid
      · rfl
      · simp [hh] at h
    simp [h, List.lookup_append, h']

theorem FS.readResolution_write_other (fs : FS) (sid sid' c : String)
    (h : sid' ≠ sid) :
    (fs.writeResolution sid c).readResolution sid' = fs.readResolution sid' := by
  unfold FS.writeResolution FS.readResolution
  by_cases hs : (fs.resolutions.lookup sid).isSome
  · simpa [hs] using lookup_str_map_other fs.resolutions sid sid' c h
  · have hne : (sid' == sid) = false := by
      simp only [beq_eq_false_iff_ne, ne_eq]
      exact h
    simp [hs, List.lookup_append, hne, List.lookup_cons]

theorem FS.readResolution_ensureDir (fs : FS) (sid sid' : String) :
    (fs.ensureDir sid).readResolution sid' = fs.readResolution sid' := by
  unfold FS.ensureDir FS.readResolution
  split <;> rfl

theorem FS.dirs_writeResolution (fs : FS) (sid c : String) :
    (fs.writeResolution sid c).dirs = fs.dirs := by
  unfold FS.writeResolution
  split <;> rfl

theorem FS.mem_dirs_ensureDir_self (fs : FS) (sid : String) :
    sid ∈ (fs.ensureDir sid).dirs := by
  unfold FS.ensureDir
  split
  · assumption
  · simp

theorem FS.mem_dirs_ensureDir_mono (fs : FS) (sid s : String)
    (h : s ∈ fs.dirs) : s ∈ (fs.ensureDir sid).dirs := by
  unfold FS.ensureDir
  split
  · exact h
  · simp [h]

/-! ## Helper lemmas: lexicographic order on character lists -/

theorem charListLt_iff_lt : ∀ l₁ l₂ : List Char, charListLt l₁ l₂ = true ↔ l₁ < l₂ := by
  intro l₁
  induction l₁ with
  | nil =>
    intro l₂
    cases l₂ with
    | nil =>
      constructor
      · intro h
        simp [charListLt] at h
      · intro h
        exact absurd h (lt_irrefl _)
    | cons b bs =>
      constructor
      · intro _
        exact List.Lex.nil
      · intro _
        rfl
  | cons a as ih =>
    intro l₂
    cases l₂ with
    | nil =>
      constructor
      · intro h
        simp [charListLt] at h
      · intro h
        cases h
    | cons b bs =>
      simp only [charListLt, Bool.or_eq_true, Bool.and_eq_true, decide_eq_true_eq]
      constructor
      · rintro (hlt | ⟨rfl, htl⟩)
        · exact List.Lex.rel hlt
        · exact List.Lex.cons ((ih bs).mp htl)
      · intro h
        cases h with
        | cons htl => exact Or.inr ⟨rfl, (ih bs).mpr htl⟩
        | rel hlt => exact Or.inl hlt

theorem pyStrLt_iff_lt (a b : String) : pyStrLt a b = true ↔ a < b := by
  rw [pyStrLt, charListLt_iff_lt, String.lt_iff_toList_lt]
  rfl

theorem sessionBefore_iff (a b : SessionListEntry) :
    sessionBefore a b ↔ b.started_at ≤ a.started_at := by
  unfold sessionBefore
  rw [← not_lt]
  constructor
  · intro h hlt
    have := (pyStrLt_iff_lt a.started_at b.started_at).mpr hlt
    rw [h] at this
    cases this
  · intro h
    cases hb : pyStrLt a.started_at b.started_at
    · rfl
    · exact absurd ((pyStrLt_iff_lt a.started_at b.started_at).mp hb) h

theorem lex_append_of_length_eq :
    ∀ {l₁ l₂ : List Char} (s₁ s₂ : List Char), l₁.length = l₂.length →
      l₁ < l₂ → l₁ ++ s₁ < l₂ ++ s₂ := by
  intro l₁ l₂ s₁ s₂ hlen h
  induction h with
  | nil => simp at hlen
  | cons htl ih =>
    exact List.Lex.cons (ih (by simpa using hlen))
  | rel hlt => exact List.Lex.rel hlt

theorem lex_append_left_cancel :
    ∀ (l : List Char) {s₁ s₂ : List Char}, s₁ < s₂ → l ++ s₁ < l ++ s₂ := by
  intro l
  induction l with
  | nil => intro s₁ s₂ h; exact h
  | cons a as ih => intro s₁ s₂ h; exact List.Lex.cons (ih h)

theorem pad2_lt : ∀ n₂ : Nat, n₂ < 100 → ∀ n₁, n₁ < n₂ → pad2 n₁ < pad2 n₂ := by
  decide

theorem pad4_lt {n₁ n₂ : Nat} (h : n₁ < n₂) (h₂ : n₂ < 10000) :
    pad4 n₁ < pad4 n₂ := by
  unfold pad4
  by_cases hq : n₁ / 100 < n₂ / 100
  · exact lex_append_of_length_eq _ _ rfl (pad2_lt _ (by omega) _ hq)
  · have hqe : n₁ / 100 = n₂ / 100 := by omega
    rw [hqe]
    exact lex_append_left_cancel _ (pad2_lt _ (by omega) _ (by omega))

theorem strftimeDate_length (t : PyDateTime) : (strftimeDate t).length = 13 := by
  simp [strftimeDate, pad4, pad2]

theorem strftimeDate_lt {t₁ t₂ : PyDateTime} (h₁ : validDateTime t₁)
    (h₂ : validDateTime t₂) (hk : minuteKey t₁ < minuteKey t₂) :
    strftimeDate t₁ < strftimeDate t₂ := by
  obtain ⟨hy₁, hy₁', hm₁, hd₁, hh₁, hmi₁⟩ := h₁
  obtain ⟨hy₂, hy₂', hm₂, hd₂, hh₂, hmi₂⟩ := h₂
  unfold minuteKey at hk
  unfold strftimeDate
  simp only [List.append_assoc]
  rcases (show t₁.year < t₂.year ∨ (t₁.year = t₂.year ∧ (t₁.month < t₂.month ∨
      (t₁.month = t₂.month ∧ (t₁.day < t₂.day ∨ (t₁.day = t₂.day ∧
      (t₁.hour < t₂.hour ∨ (t₁.hour = t₂.hour ∧ t₁.minute < t₂.minute)))))))
      by omega) with hy | ⟨hye, hrest⟩
  · exact lex_append_of_length_eq _ _ rfl (pad4_lt hy (by omega))
  · rw [hye]
    apply lex_append_left_cancel
    rcases hrest with hm | ⟨hme, hrest⟩
    · exact lex_append_of_length_eq _ _ rfl (pad2_lt _ hm₂ _ hm)
    · rw [hme]
      apply lex_append_left_cancel
      rcases hrest with hd | ⟨hde, hrest⟩
      · exact lex_append_of_length_eq _ _ rfl (pad2_lt _ hd₂ _ hd)
      · rw [hde]
        apply lex_append_left_cancel
        apply lex_append_left_cancel
        rcases hrest with hh | ⟨hhe, hmi⟩
        · exact lex_append_of_length_eq _ _ rfl (pad2_lt _ hh₂ _ hh)
        · rw [hhe]
          apply lex_append_left_cancel
          exact pad2_lt _ hmi₂ _ hmi

theorem generate_session_id_lt {t₁ t₂ : PyDateTime} (r₁ r₂ : Nat)
    (h₁ : validDateTime t₁) (h₂ : validDateTime t₂)
    (hk : minuteKey t₁ < minuteKey t₂) :
    generate_session_id t₁ r₁ < generate_session_id t₂ r₂ := by
  rw [String.lt_iff_toList_lt]
  show strftimeDate t₁ ++ ['_'] ++ Nat.toDigits 10 r₁ <
    strftimeDate t₂ ++ ['_'] ++ Nat.toDigits 10 r₂
  simp only [List.append_assoc]
  exact lex_append_of_length_eq _ _
    ((strftimeDate_length t₁).trans (strftimeDate_length t₂).symm)
    (strftimeDate_lt h₁ h₂ hk)

/-! ## Helper lemmas: flow-run characterizations -/

theorem runDatabaseFlow_file_missing {env : FlowEnv} (seed : String) (fs : FS)
    (hfile : env.ticketFile = none) :
    runDatabaseFlow env seed fs =
      { result := .error "FileNotFoundError: initial_files/ticket_description.txt",
        state := { session_id := generate_session_id env.now env.rand,
                   ticket_content := seed },
        fs := fs.ensureDir (generate_session_id env.now env.rand),
        executedPipelines := [], finalized := false } := by
  unfold runDatabaseFlow
  rw [hfile]

theorem runDatabaseFlow_db_ok {env : FlowEnv} (seed : String) (fs : FS)
    {content raw : String} (hfile : env.ticketFile = some content)
    (hclass : env.classify content = "database_crew")
    (hok : env.dbAgentRun = .ok raw) :
    runDatabaseFlow env seed fs =
      { result := .ok (finalize_flow
          { status := "crew_executed", crew_result := .raw raw,
            ticket_route := "database_crew", ticket_content := content,
            session_id := generate_session_id env.now env.rand }).2,
        state := (finalize_flow
          { status := "crew_executed", crew_result := .raw raw,
            ticket_route := "database_crew", ticket_content := content,
            session_id := generate_session_id env.now env.rand }).1,
        fs := ((fs.ensureDir (generate_session_id env.now env.rand)).ensureDir
            (generate_session_id env.now env.rand)).writeResolution
            (generate_session_id env.now env.rand) raw,
        executedPipelines := ["database_crew"], finalized := true } := by
  unfold runDatabaseFlow
  rw [hfile]
  simp only [hclass, routeOf, hok]
  rfl

theorem runDatabaseFlow_db_err {env : FlowEnv} (seed : String) (fs : FS)
    {content e : String} (hfile : env.ticketFile = some content)
    (hclass : env.classify content = "database_crew")
    (herr : env.dbAgentRun = .error e) :
    runDatabaseFlow env seed fs =
      { result := .error ("Failed to execute database monitoring crew: " ++ e),
        state := { crew_result := .failure e, ticket_route := "database_crew",
                   ticket_content := content,
                   session_id := generate_session_id env.now env.rand },
        fs := (fs.ensureDir (generate_session_id env.now env.rand)).ensureDir
            (generate_session_id env.now env.rand),
        executedPipelines := ["database_crew"], finalized := false } := by
  unfold runDatabaseFlow
  rw [hfile]
  simp only [hclass, routeOf, herr]
  rfl

theorem runDatabaseFlow_default {env : FlowEnv} (seed : String) (fs : FS)
    {content : String} (hfile : env.ticketFile = some content)
    (h1 : env.classify content ≠ "database_crew")
    (h2 : env.classify content ≠ "database_complex_crew") :
    runDatabaseFlow env seed fs =
      { result := .ok "default_handler",
        state := { ticket_route := env.classify content, ticket_content := content,
                   session_id := generate_session_id env.now env.rand },
        fs := fs.ensureDir (generate_session_id env.now env.rand),
        executedPipelines := [], finalized := false } := by
  unfold runDatabaseFlow
  rw [hfile]
  simp only [routeOf, if_neg h1, if_neg h2]
  rfl

theorem runDatabaseFlow_complex_ok {env : FlowEnv} (seed : String) (fs : FS)
    {content raw : String} (hfile : env.ticketFile = some content)
    (hclass : env.classify content = "database_complex_crew")
    (hok : env.complexRun = .ok raw) :
    runDatabaseFlow env seed fs =
      { result := .ok (finalize_flow
          { status := "crew_executed", crew_result := .raw raw,
            ticket_route := "database_complex_crew", ticket_content := content,
            session_id := generate_session_id env.now env.rand }).2,
        state := (finalize_flow
          { status := "crew_executed", crew_result := .raw raw,
            ticket_route := "database_complex_crew", ticket_content := content,
            session_id := generate_session_id env.now env.rand }).1,
        fs := { fs.ensureDir (generate_session_id env.now env.rand) with
                orchestration := some raw },
        executedPipelines := ["database_complex_crew"], finalized := true } := by
  unfold runDatabaseFlow
  rw [hfile]
  simp only [hclass, routeOf, hok]
  rfl

theorem runDatabaseFlow_complex_err {env : FlowEnv} (seed : String) (fs : FS)
    {content e : String} (hfile : env.ticketFile = some content)
    (hclass : env.classify content = "database_complex_crew")
    (herr : env.complexRun = .error e) :
    runDatabaseFlow env seed fs =
      { result := .error ("Failed to execute database complex crew: " ++ e),
        state := { crew_result := .failure e,
                   ticket_route := "database_complex_crew",
                   ticket_content := content,
                   session_id := generate_session_id env.now env.rand },
        fs := fs.ensureDir (generate_session_id env.now env.rand),
        executedPipelines := ["database_complex_crew"], finalized := false } := by
  unfold runDatabaseFlow
  rw [hfile]
  simp only [hclass, routeOf, herr]
  rfl

/-! ## Helper lemmas: kickoff wrapper and background runner -/

theorem kickoff_with_ticket_snd (tc : String) (env : FlowEnv) (fs : FS) :
    (kickoff_database_flow_with_ticket tc env fs).2 = (runDatabaseFlow env tc fs).fs := by
  simp only [kickoff_database_flow_with_ticket]
  split <;> rfl

theorem kickoff_with_ticket_ok {tc : String} {env : FlowEnv} {fs : FS} {r : String}
    (h : (runDatabaseFlow env tc fs).result = .ok r) :
    (kickoff_database_flow_with_ticket tc env fs).1 =
      .ok r (runDatabaseFlow env tc fs).state := by
  simp only [kickoff_database_flow_with_ticket]
  split
  · rename_i heq
    rw [h] at heq
    cases heq
    rfl
  · rename_i heq
    rw [h] at heq
    cases heq

theorem kickoff_with_ticket_err {tc : String} {env : FlowEnv} {fs : FS} {e : String}
    (h : (runDatabaseFlow env tc fs).result = .error e) :
    (kickoff_database_flow_with_ticket tc env fs).1 = .err e := by
  simp only [kickoff_database_flow_with_ticket]
  split
  · rename_i heq
    rw [h] at heq
    cases heq
  · rename_i heq
    rw [h] at heq
    cases heq
    rfl

theorem run_flow_background_fst (sid tc t₁ t₂ : String) (env : FlowEnv)
    (reg : Registry) (fs : FS) :
    (run_flow_background sid tc t₁ t₂ env reg fs).1 =
      (registerRunning reg sid t₁).modify sid fun r =>
        { r with status := .completed, stage := "finalized",
                 result := some (kickoff_database_flow_with_ticket tc env fs).1,
                 completed_at := some t₂ } := rfl

theorem run_flow_background_snd (sid tc t₁ t₂ : String) (env : FlowEnv)
    (reg : Registry) (fs : FS) :
    (run_flow_background sid tc t₁ t₂ env reg fs).2 = (runDatabaseFlow env tc fs).fs :=
  kickoff_with_ticket_snd tc env fs

theorem run_flow_background_find_self (sid tc t₁ t₂ : String) (env : FlowEnv)
    (reg : Registry) (fs : FS) :
    (run_flow_background sid tc t₁ t₂ env reg fs).1.find sid =
      some ⟨.completed, "finalized",
            some (kickoff_database_flow_with_ticket tc env fs).1, none, t₁, some t₂⟩ := by
  rw [run_flow_background_fst, Registry.find_modify_self, registerRunning,
    Registry.find_set_self]
  rfl

theorem run_flow_background_find_other (sid tc t₁ t₂ : String) (env : FlowEnv)
    (reg : Registry) (fs : FS) {sid' : String} (h : sid' ≠ sid) :
    (run_flow_background sid tc t₁ t₂ env reg fs).1.find sid' = reg.find sid' := by
  rw [run_flow_background_fst, Registry.find_modify_other _ _ _ _ h, registerRunning,
    Registry.find_set_other _ _ _ _ h]

/-! ## Claim C3 -/

/-- C3 (counterexample): contrary to the claim, `start_monitoring` creates no
durable storage location for the identifier it returns.  Submitting on an
empty filesystem returns session id `20261012_1000_1111` at once, yet the
filesystem still has no `results/20261012_1000_1111/` directory (it is
unchanged), so the location is not created "immediately, before any pipeline
runs". -/
theorem start_monitoring_creates_no_location :
    (start_monitoring "db ticket" ⟨2026, 10, 12, 10, 0, 0⟩ 1111 [] FS.empty).1.session_id =
      "20261012_1000_1111" ∧
    (start_monitoring "db ticket" ⟨2026, 10, 12, 10, 0, 0⟩ 1111 [] FS.empty).2.2.2 =
      FS.empty ∧
    "20261012_1000_1111" ∉ (FS.empty).dirs := by
  refine ⟨by decide, rfl, by decide⟩

/-- C3 (amended): `start_monitoring` returns the fresh session identifier
immediately — the flow is only scheduled as a background task, and neither the
registry nor the filesystem is touched, so no storage location exists yet for
the returned identifier at submission time.  A `results/` location is created
only when the background flow run executes, and for the identifier the flow
generates internally (`env.now`/`env.rand`), not for the one the caller
received. -/
theorem start_monitoring_returns_immediately (tc : String) (now : PyDateTime)
    (rand : Nat) (reg : Registry) (fs : FS) (sid tc' t₁ t₂ : String)
    (env : FlowEnv) :
    start_monitoring tc now rand reg fs =
      (⟨generate_session_id now rand, "started", "Flow started successfully"⟩,
       ⟨generate_session_id now rand, tc⟩, reg, fs) ∧
    generate_session_id env.now env.rand ∈
      (run_flow_background sid tc' t₁ t₂ env reg fs).2.dirs := by
  constructor
  · rfl
  · rw [run_flow_background_snd]
    rcases hf : env.ticketFile with _ | content
    · rw [runDatabaseFlow_file_missing tc' fs hf]
      exact FS.mem_dirs_ensureDir_self fs _
    · by_cases h1 : env.classify content = "database_crew"
      · rcases hdb : env.dbAgentRun with e | raw
        · rw [runDatabaseFlow_db_err tc' fs hf h1 hdb]
          exact FS.mem_dirs_ensureDir_mono _ _ _ (FS.mem_dirs_ensureDir_self fs _)
        · rw [runDatabaseFlow_db_ok tc' fs hf h1 hdb]
          show _ ∈ (FS.writeResolution _ _ _).dirs
          rw [FS.dirs_writeResolution]
          exact FS.mem_dirs_ensureDir_mono _ _ _ (FS.mem_dirs_ensureDir_self fs _)
      · by_cases h2 : env.classify content = "database_complex_crew"
        · rcases hcx : env.complexRun with e | raw
          · rw [runDatabaseFlow_complex_err tc' fs hf h2 hcx]
            exact FS.mem_dirs_ensureDir_self fs _
          · rw [runDatabaseFlow_complex_ok tc' fs hf h2 hcx]
            exact FS.mem_dirs_ensureDir_self fs _
        · rw [runDatabaseFlow_default tc' fs hf h1 h2]
          exact FS.mem_dirs_ensureDir_self fs _

/-! ## Claim C5 -/

/-- C5 (counterexample): registering an identifier that is already present
does not fail with a `DuplicateSession` error and does not leave the existing
record unchanged — the assignment `active_sessions[session_id] = {...}` in
`run_flow_background` silently replaces the completed record with a fresh
`running` one. -/
theorem register_existing_replaces_record :
    regCompletedDemo.find "S" =
      some ⟨.completed, "finalized", some (.ok "r" {}), none, "T1", some "T2"⟩ ∧
    (registerRunning regCompletedDemo "S" "T9").find "S" =
      some ⟨.running, "initializing", none, none, "T9", none⟩ ∧
    (⟨.running, "initializing", none, none, "T9", none⟩ : SessionRecord) ≠
      ⟨.completed, "finalized", some (.ok "r" {}), none, "T1", some "T2"⟩ := by
  refine ⟨rfl, by decide, by decide⟩

/-- C5 (amended): registration never fails and never preserves an existing
record: `registerRunning` unconditionally installs a fresh `running` record
under the identifier (silently overwriting any record already there), while
records under other identifiers are untouched.  No `DuplicateSession` error
exists anywhere in the API layer. -/
theorem registerRunning_overwrites (reg : Registry) (sid t : String) :
    (registerRunning reg sid t).find sid =
      some ⟨.running, "initializing", none, none, t, none⟩ ∧
    ∀ sid', sid' ≠ sid → (registerRunning reg sid t).find sid' = reg.find sid' :=
  ⟨Registry.find_set_self reg sid _, fun _ h => Registry.find_set_other reg sid _ _ h⟩

/-- C5 witness: the amended statement at a concrete registry. -/
theorem registerRunning_overwrites_witness :
    (registerRunning regCompletedDemo "S" "T9").find "S" =
      some ⟨.running, "initializing", none, none, "T9", none⟩ ∧
    (registerRunning regCompletedDemo "S" "T9").find "X" = regCompletedDemo.find "X" :=
  ⟨(registerRunning_overwrites regCompletedDemo "S" "T9").1,
   (registerRunning_overwrites regCompletedDemo "S" "T9").2 "X" (by decide)⟩

/-! ## Claim C7 -/

/-- C7 (counterexample): two distinct calls of `generate_session_id` can
collide.  The calls happen at different instants (seconds 5 and 37 of the same
minute, so "rapid succession" in one process), both `randint(1000, 9999)`
draws are valid, and the two identifiers are equal — the generator guarantees
no uniqueness. -/
theorem generate_session_id_can_collide :
    (⟨2026, 10, 12, 15, 30, 5⟩ : PyDateTime) ≠ ⟨2026, 10, 12, 15, 30, 37⟩ ∧
    validRandom 1234 ∧
    generate_session_id ⟨2026, 10, 12, 15, 30, 5⟩ 1234 =
      generate_session_id ⟨2026, 10, 12, 15, 30, 37⟩ 1234 := by
  refine ⟨by decide, by decide, rfl⟩

/-- C7 (amended): identifiers generated in the same minute may collide when
the random draws coincide (previous theorem); across distinct minutes the
contract does hold: an identifier generated in a strictly later minute is
lexicographically greater (hence also distinct), whatever the random draws,
for all in-range dates. -/
theorem generate_session_id_sorted_across_minutes (t₁ t₂ : PyDateTime)
    (r₁ r₂ : Nat) (h₁ : validDateTime t₁) (h₂ : validDateTime t₂)
    (hk : minuteKey t₁ < minuteKey t₂) :
    generate_session_id t₁ r₁ < generate_session_id t₂ r₂ ∧
    generate_session_id t₁ r₁ ≠ generate_session_id t₂ r₂ :=
  ⟨generate_session_id_lt r₁ r₂ h₁ h₂ hk,
   ne_of_lt (generate_session_id_lt r₁ r₂ h₁ h₂ hk)⟩

/-- C7 witness: the amended statement at concrete adjacent minutes (with the
larger random draw on the earlier identifier). -/
theorem generate_session_id_sorted_across_minutes_witness :
    generate_session_id ⟨2026, 10, 12, 15, 30, 59⟩ 9999 <
      generate_session_id ⟨2026, 10, 12, 15, 31, 0⟩ 1000 ∧
    generate_session_id ⟨2026, 10, 12, 15, 30, 59⟩ 9999 ≠
      generate_session_id ⟨2026, 10, 12, 15, 31, 0⟩ 1000 :=
  generate_session_id_sorted_across_minutes ⟨2026, 10, 12, 15, 30, 59⟩
    ⟨2026, 10, 12, 15, 31, 0⟩ 9999 1000 (by decide) (by decide) (by decide)

/-! ## Claim C8 -/

/-- C8 (counterexample): a `completed` status does change again.  After a full
background execution the record of session `S` is `completed`; a later
execution that draws the same identifier starts by re-registering it, which
resets the very same record back to `running` — the status moves backward
from a terminal state. -/
theorem completed_status_reset_by_reregistration :
    (((run_flow_background "S" "t" "T1" "T2" envDbOk [] FS.empty).1.find "S").map
        SessionRecord.status = some .completed) ∧
    (((registerRunning ((run_flow_background "S" "t" "T1" "T2" envDbOk []
        FS.empty).1) "S" "T3").find "S").map SessionRecord.status =
      some .running) ∧
    RegStatus.rank .running < RegStatus.rank .completed := by
  refine ⟨by decide, by decide, by decide⟩

/-- C8 (amended): within a single background execution the status of the
session is monotone — the execution first installs a `running` record, and its
only later update raises it to the terminal `completed` (rank increasing,
`completed` terminal); records of other identifiers are never touched.
However (previous theorem) a later execution that reuses a collided
identifier resets the record, so monotonicity holds per execution, not
globally per identifier. -/
theorem run_flow_background_monotone (sid tc t₁ t₂ : String) (env : FlowEnv)
    (reg : Registry) (fs : FS) :
    ((registerRunning reg sid t₁).find sid).map SessionRecord.status =
      some .running ∧
    ((run_flow_background sid tc t₁ t₂ env reg fs).1.find sid).map
        SessionRecord.status = some .completed ∧
    RegStatus.rank .running < RegStatus.rank .completed ∧
    RegStatus.isTerminal .completed = true ∧
    ∀ sid', sid' ≠ sid →
      (run_flow_background sid tc t₁ t₂ env reg fs).1.find sid' = reg.find sid' := by
  refine ⟨?_, ?_, by decide, rfl, ?_⟩
  · rw [registerRunning, Registry.find_set_self]
    rfl
  · rw [run_flow_background_find_self]
    rfl
  · intro sid' h
    exact run_flow_background_find_other sid tc t₁ t₂ env reg fs h

/-- C8 witness: the amended statement at a concrete execution. -/
theorem run_flow_background_monotone_witness :
    ((registerRunning [] "S" "T1").find "S").map SessionRecord.status =
      some .running ∧
    ((run_flow_background "S" "t" "T1" "T2" envDbOk [] FS.empty).1.find "S").map
        SessionRecord.status = some .completed ∧
    (run_flow_background "S" "t" "T1" "T2" envDbOk [] FS.empty).1.find "X" =
      Registry.find [] "X" :=
  ⟨(run_flow_background_monotone "S" "t" "T1" "T2" envDbOk [] FS.empty).1,
   (run_flow_background_monotone "S" "t" "T1" "T2" envDbOk [] FS.empty).2.1,
   (run_flow_background_monotone "S" "t" "T1" "T2" envDbOk [] FS.empty).2.2.2.2 "X"
     (by decide)⟩

/-! ## Claim C1 -/

/-- C1 (counterexample): the route produced by the classifier does not always
resolve to a pipeline.  When the analyzer reports an unrecognized route
string, the router returns the reserved `default_handler` label — but no
`@listen("default_handler")` method exists, so no pipeline executes and the
session never reaches the `finalize_flow` join point. -/
theorem default_route_reaches_no_pipeline :
    routeOf (envUnrecognized.classify "please advise on the weather") =
      "default_handler" ∧
    flowListeners "default_handler" = false ∧
    (runDatabaseFlow envUnrecognized "please advise on the weather"
      FS.empty).executedPipelines = [] ∧
    (runDatabaseFlow envUnrecognized "please advise on the weather"
      FS.empty).finalized = false := by
  refine ⟨rfl, rfl, by decide, by decide⟩

/-- C1 (amended): classification is total — the router maps every route
string to one of the three labels, falling back to `default_handler` — and at
most one pipeline executes per session.  For the two recognized labels
exactly one pipeline is invoked, and finalization is reached exactly when
that pipeline's kickoff returns instead of raising; for the `default_handler`
label no pipeline is invoked and finalization is never reached. -/
theorem classifier_total_but_default_unhandled (env : FlowEnv) (seed : String)
    (fs : FS) (content : String) (hfile : env.ticketFile = some content) :
    (∀ s, routeOf s = "database_crew" ∨ routeOf s = "database_complex_crew" ∨
      routeOf s = "default_handler") ∧
    (∀ s, s ≠ "database_crew" → s ≠ "database_complex_crew" →
      routeOf s = "default_handler") ∧
    (runDatabaseFlow env seed fs).executedPipelines.length ≤ 1 ∧
    (env.classify content = "database_crew" →
      (runDatabaseFlow env seed fs).executedPipelines = ["database_crew"] ∧
      ((runDatabaseFlow env seed fs).finalized = true ↔
        ∃ raw, env.dbAgentRun = .ok raw)) ∧
    (env.classify content = "database_complex_crew" →
      (runDatabaseFlow env seed fs).executedPipelines = ["database_complex_crew"] ∧
      ((runDatabaseFlow env seed fs).finalized = true ↔
        ∃ raw, env.complexRun = .ok raw)) ∧
    (env.classify content ≠ "database_crew" →
      env.classify content ≠ "database_complex_crew" →
      (runDatabaseFlow env seed fs).executedPipelines = [] ∧
      (runDatabaseFlow env seed fs).finalized = false) := by
  refine ⟨?_, ?_, ?_, ?_, ?_, ?_⟩
  · intro s
    unfold routeOf
    split_ifs <;> simp
  · intro s h1 h2
    simp [routeOf, h1, h2]
  · by_cases h1 : env.classify content = "database_crew"
    · rcases hdb : env.dbAgentRun with e | raw
      · rw [runDatabaseFlow_db_err seed fs hfile h1 hdb]
        simp
      · rw [runDatabaseFlow_db_ok seed fs hfile h1 hdb]
        simp
    · by_cases h2 : env.classify content = "database_complex_crew"
      · rcases hcx : env.complexRun with e | raw
        · rw [runDatabaseFlow_complex_err seed fs hfile h2 hcx]
          simp
        · rw [runDatabaseFlow_complex_ok seed fs hfile h2 hcx]
          simp
      · rw [runDatabaseFlow_default seed fs hfile h1 h2]
        exact Nat.zero_le 1
  · intro h1
    rcases hdb : env.dbAgentRun with e | raw
    · rw [runDatabaseFlow_db_err seed fs hfile h1 hdb]
      refine ⟨rfl, ?_⟩
      simp only [hdb]
      constructor
      · intro h
        cases h
      · rintro ⟨raw, h⟩
        cases h
    · rw [runDatabaseFlow_db_ok seed fs hfile h1 hdb]
      exact ⟨rfl, by simp [hdb]⟩
  · intro h2
    rcases hcx : env.complexRun with e | raw
    · rw [runDatabaseFlow_complex_err seed fs hfile h2 hcx]
      refine ⟨rfl, ?_⟩
      simp only [hcx]
      constructor
      · intro h
        cases h
      · rintro ⟨raw, h⟩
        cases h
    · rw [runDatabaseFlow_complex_ok seed fs hfile h2 hcx]
      exact ⟨rfl, by simp [hcx]⟩
  · intro h1 h2
    rw [runDatabaseFlow_default seed fs hfile h1 h2]
    exact ⟨rfl, rfl⟩

/-- C1 witness: the amended statement at concrete environments — the
database route executes exactly its pipeline, and an unrecognized route
string falls back to `default_handler`. -/
theorem classifier_total_but_default_unhandled_witness :
    (runDatabaseFlow envDbOk "t" FS.empty).executedPipelines = ["database_crew"] ∧
    routeOf "nonsense" = "default_handler" :=
  ⟨((classifier_total_but_default_unhandled envDbOk "t" FS.empty
      "long running query on testdb" rfl).2.2.2.1 rfl).1,
   (classifier_total_but_default_unhandled envDbOk "t" FS.empty
      "long running query on testdb" rfl).2.1 "nonsense" (by decide) (by decide)⟩

/-! ## Claim C4 -/

/-- C4 (counterexample): a session whose pipeline raises an unrecoverable
error is not marked `failed`.  With the database crew's kickoff raising
`"boom"`, the background run records the session as `completed` — the
registry `error` field stays unset and the failure is only visible inside the
result payload. -/
theorem failed_pipeline_marked_completed :
    (run_flow_background "S1" "t" "T1" "T2" envDbErr [] FS.empty).1.find "S1" =
      some ⟨.completed, "finalized",
        some (.err "Failed to execute database monitoring crew: boom"),
        none, "T1", some "T2"⟩ ∧
    RegStatus.completed ≠ RegStatus.failed := by
  refine ⟨by decide, by decide⟩

/-- C4 (amended): when the pipeline raises, `kickoff_database_flow_with_ticket`
catches the exception (as `kickoff_database_flow` does) and returns a
failure-shaped payload, so the `except` arm of `run_flow_background` never
fires: the session's terminal record is `completed`, holding that payload
(success flag `false`, wrapped error message) as its result, with the
registry-level `error` field still `none`.  In particular the record never
holds a populated `error` together with a result. -/
theorem pipeline_failure_completed_with_failure_payload
    (sid tc t₁ t₂ content e : String) (env : FlowEnv) (reg : Registry)
    (fs : FS) (hfile : env.ticketFile = some content)
    (hclass : env.classify content = "database_crew")
    (herr : env.dbAgentRun = .error e) :
    (run_flow_background sid tc t₁ t₂ env reg fs).1.find sid =
      some ⟨.completed, "finalized",
        some (.err ("Failed to execute database monitoring crew: " ++ e)),
        none, t₁, some t₂⟩ ∧
    (KickoffResult.err
      ("Failed to execute database monitoring crew: " ++ e)).successFlag = false ∧
    (KickoffResult.err
        ("Failed to execute database monitoring crew: " ++ e)).errorMsg =
      some ("Failed to execute database monitoring crew: " ++ e) := by
  refine ⟨?_, rfl, rfl⟩
  rw [run_flow_background_find_self]
  have h : (kickoff_database_flow_with_ticket tc env fs).1 =
      .err ("Failed to execute database monitoring crew: " ++ e) :=
    kickoff_with_ticket_err (by rw [runDatabaseFlow_db_err tc fs hfile hclass herr])
  rw [h]

/-- C4 witness: the amended statement at the concrete raising environment. -/
theorem pipeline_failure_completed_witness :
    (run_flow_background "S1" "t" "T1" "T2" envDbErr [] FS.empty).1.find "S1" =
      some ⟨.completed, "finalized",
        some (.err ("Failed to execute database monitoring crew: " ++ "boom")),
        none, "T1", some "T2"⟩ :=
  (pipeline_failure_completed_with_failure_payload "S1" "t" "T1" "T2"
    "long running query on testdb" "boom" envDbErr [] FS.empty rfl rfl rfl).1

/-! ## Claim C2 -/

/-- C2 (counterexample): a session can be `completed` in the registry while
the result store has nothing under the session's identifier.  The API
registers the run under its own identifier `20261012_1000_1111`, but the flow
generates a fresh internal identifier (`20261012_1000_2222` here) and the
pipeline persists `query_resolution.json` under that one — so a store read at
the announced identifier fails even though the status query reports
`completed`. -/
theorem completed_status_without_store_entry :
    ((run_flow_background "20261012_1000_1111" "t" "T1" "T2" envDbOk []
        FS.empty).1.find "20261012_1000_1111").map SessionRecord.status =
      some .completed ∧
    (run_flow_background "20261012_1000_1111" "t" "T1" "T2" envDbOk []
        FS.empty).2.readResolution "20261012_1000_1111" = none ∧
    (run_flow_background "20261012_1000_1111" "t" "T1" "T2" envDbOk []
        FS.empty).2.readResolution "20261012_1000_2222" = some "RAW" := by
  refine ⟨by decide, by decide, by decide⟩

/-- C2 (amended): after a successful database-crew run the registry record is
`completed` and holds the kickoff outcome in memory (the success-shaped
payload), but the durable store receives the pipeline outcome under the
flow's internally generated identifier `generate_session_id env.now env.rand`;
store entries under every other identifier — including the session's own
registry identifier, whenever it differs — are unchanged, so persist-then-
announce holds only for the flow-internal identifier, not the announced
one. -/
theorem completed_outcome_under_flow_identifier
    (sid tc t₁ t₂ content raw : String) (env : FlowEnv) (reg : Registry)
    (fs : FS) (hfile : env.ticketFile = some content)
    (hclass : env.classify content = "database_crew")
    (hok : env.dbAgentRun = .ok raw) :
    ((run_flow_background sid tc t₁ t₂ env reg fs).1.find sid).map
        SessionRecord.status = some .completed ∧
    ((run_flow_background sid tc t₁ t₂ env reg fs).1.find sid).bind
        SessionRecord.result = some (kickoff_database_flow_with_ticket tc env fs).1 ∧
    (kickoff_database_flow_with_ticket tc env fs).1.successFlag = true ∧
    (run_flow_background sid tc t₁ t₂ env reg fs).2.readResolution
        (generate_session_id env.now env.rand) = some raw ∧
    ∀ sid', sid' ≠ generate_session_id env.now env.rand →
      (run_flow_background sid tc t₁ t₂ env reg fs).2.readResolution sid' =
        fs.readResolution sid' := by
  have hk : (kickoff_database_flow_with_ticket tc env fs).1 =
      .ok (finalize_flow
        { status := "crew_executed", crew_result := .raw raw,
          ticket_route := "database_crew", ticket_content := content,
          session_id := generate_session_id env.now env.rand }).2
        (runDatabaseFlow env tc fs).state :=
    kickoff_with_ticket_ok (by rw [runDatabaseFlow_db_ok tc fs hfile hclass hok])
  refine ⟨?_, ?_, ?_, ?_, ?_⟩
  · rw [run_flow_background_find_self]
    rfl
  · rw [run_flow_background_find_self]
    rfl
  · rw [hk]
    rfl
  · rw [run_flow_background_snd, runDatabaseFlow_db_ok tc fs hfile hclass hok]
    exact FS.readResolution_write_self _ _ _
  · intro sid' h
    rw [run_flow_background_snd, runDatabaseFlow_db_ok tc fs hfile hclass hok]
    show (FS.writeResolution _ _ _).readResolution sid' = _
    rw [FS.readResolution_write_other _ _ _ _ h, FS.readResolution_ensureDir,
      FS.readResolution_ensureDir]

/-- C2 witness: the amended statement at the concrete environment, including
that the store is untouched under the announced identifier. -/
theorem completed_outcome_under_flow_identifier_witness :
    ((run_flow_background "20261012_1000_1111" "t" "T1" "T2" envDbOk []
        FS.empty).1.find "20261012_1000_1111").map SessionRecord.status =
      some .completed ∧
    (run_flow_background "20261012_1000_1111" "t" "T1" "T2" envDbOk []
        FS.empty).2.readResolution (generate_session_id envDbOk.now envDbOk.rand) =
      some "RAW" ∧
    (run_flow_background "20261012_1000_1111" "t" "T1" "T2" envDbOk []
        FS.empty).2.readResolution "20261012_1000_1111" =
      FS.empty.readResolution "20261012_1000_1111" :=
  ⟨(completed_outcome_under_flow_identifier "20261012_1000_1111" "t" "T1" "T2"
      "long running query on testdb" "RAW" envDbOk [] FS.empty rfl rfl rfl).1,
   (completed_outcome_under_flow_identifier "20261012_1000_1111" "t" "T1" "T2"
      "long running query on testdb" "RAW" envDbOk [] FS.empty rfl rfl rfl).2.2.2.1,
   (completed_outcome_under_flow_identifier "20261012_1000_1111" "t" "T1" "T2"
      "long running query on testdb" "RAW" envDbOk [] FS.empty rfl rfl rfl).2.2.2.2
     "20261012_1000_1111" (by decide)⟩

/-! ## Claim C10 -/

theorem finalize_flow_state_fields (st : DatabaseState) :
    (finalize_flow st).1.ticket_content = st.ticket_content ∧
    (finalize_flow st).1.ticket_route = st.ticket_route ∧
    (finalize_flow st).1.session_id = st.session_id ∧
    (finalize_flow st).1.crew_result = st.crew_result := by
  unfold finalize_flow
  split <;> exact ⟨rfl, rfl, rfl, rfl⟩

/-- C10: the route — and the entire flow run — depends only on the content of
`initial_files/ticket_description.txt` (plus the classifier), not on the
ticket text submitted with the request: two runs that differ only in the
submitted `ticket_content` seed are identical, the classification step reads
exactly the file content, and the recorded route is the classifier's output
on that file content. -/
theorem route_independent_of_submitted_ticket (env : FlowEnv) (tc₁ tc₂ : String)
    (fs : FS) (content : String) (hfile : env.ticketFile = some content) :
    runDatabaseFlow env tc₁ fs = runDatabaseFlow env tc₂ fs ∧
    (runDatabaseFlow env tc₁ fs).state.ticket_content = content ∧
    (runDatabaseFlow env tc₁ fs).state.ticket_route = env.classify content := by
  refine ⟨?_, ?_⟩
  · unfold runDatabaseFlow
    rw [hfile]
  · by_cases h1 : env.classify content = "database_crew"
    · rcases hdb : env.dbAgentRun with e | raw
      · rw [runDatabaseFlow_db_err tc₁ fs hfile h1 hdb]
        exact ⟨rfl, h1.symm⟩
      · rw [runDatabaseFlow_db_ok tc₁ fs hfile h1 hdb]
        exact ⟨(finalize_flow_state_fields _).1,
          ((finalize_flow_state_fields _).2.1).trans h1.symm⟩
    · by_cases h2 : env.classify content = "database_complex_crew"
      · rcases hcx : env.complexRun with e | raw
        · rw [runDatabaseFlow_complex_err tc₁ fs hfile h2 hcx]
          exact ⟨rfl, h2.symm⟩
        · rw [runDatabaseFlow_complex_ok tc₁ fs hfile h2 hcx]
          exact ⟨(finalize_flow_state_fields _).1,
            ((finalize_flow_state_fields _).2.1).trans h2.symm⟩
      · rw [runDatabaseFlow_default tc₁ fs hfile h1 h2]
        exact ⟨rfl, rfl⟩

/-- C10 witness: two submissions with different ticket text but the same file
produce identical runs, and the classification step reads the file text. -/
theorem route_independent_of_submitted_ticket_witness :
    runDatabaseFlow envDbOk "ticket text A" FS.empty =
      runDatabaseFlow envDbOk "ticket text B" FS.empty ∧
    (runDatabaseFlow envDbOk "ticket text A" FS.empty).state.ticket_content =
      "long running query on testdb" :=
  ⟨(route_independent_of_submitted_ticket envDbOk "ticket text A" "ticket text B"
      FS.empty "long running query on testdb" rfl).1,
   (route_independent_of_submitted_ticket envDbOk "ticket text A" "ticket text B"
      FS.empty "long running query on testdb" rfl).2.1⟩

/-! ## Claim C6 -/

/-- C6: the status query consults the registry first (the store is irrelevant
when the identifier is registered), falls back to the durable store only when
the identifier is absent from the registry, and answers exactly one of:
still running, completed with an outcome, failed with an error, or not found
(given well-formed registry records, which the background runner preserves).
After a restart — registry empty, store intact — a previously persisted
session still answers completed with its stored outcome. -/
theorem get_status_layered_total_restart_safe (reg : Registry) (fs : FS)
    (sid : String) :
    (∀ rec, reg.find sid = some rec →
      get_status reg fs sid =
        .ok ⟨sid, rec.status.toStr, rec.stage, rec.result.map .flow, rec.error,
             rec.started_at, rec.completed_at⟩) ∧
    (reg.find sid = none → ∀ c, fs.readResolution sid = some c →
      get_status reg fs sid =
        .ok ⟨sid, "completed", "finalized", some (.data c), none, "unknown",
             some "unknown"⟩) ∧
    (reg.find sid = none → fs.readResolution sid = none →
      get_status reg fs sid = .notFound) ∧
    (WFRegistry reg →
      (∃ b, get_status reg fs sid = .ok b ∧
        (b.status = "running" ∨ (b.status = "completed" ∧ b.result.isSome) ∨
          (b.status = "failed" ∧ b.error.isSome))) ∨
      get_status reg fs sid = .notFound) ∧
    (∀ c, fs.readResolution sid = some c →
      get_status [] fs sid =
        .ok ⟨sid, "completed", "finalized", some (.data c), none, "unknown",
             some "unknown"⟩) ∧
    (WFRegistry reg → ∀ sid' tc t₁ t₂ env,
      WFRegistry (run_flow_background sid' tc t₁ t₂ env reg fs).1) := by
  refine ⟨?_, ?_, ?_, ?_, ?_, ?_⟩
  · intro rec h
    simp [get_status, h]
  · intro h₁ c h₂
    simp [get_status, h₁, h₂]
  · intro h₁ h₂
    simp [get_status, h₁, h₂]
  · intro hwf
    cases hr : reg.find sid with
    | some rec =>
      left
      refine ⟨⟨sid, rec.status.toStr, rec.stage, rec.result.map .flow, rec.error,
        rec.started_at, rec.completed_at⟩, by simp [get_status, hr], ?_⟩
      have hr' := hwf sid rec hr
      cases hst : rec.status with
      | running => exact Or.inl (by simp [hst, RegStatus.toStr])
      | completed =>
        refine Or.inr (Or.inl ⟨by simp [hst, RegStatus.toStr], ?_⟩)
        simpa [Option.isSome_map] using hr'.1 hst
      | failed =>
        exact Or.inr (Or.inr ⟨by simp [hst, RegStatus.toStr], hr'.2 hst⟩)
    | none =>
      cases hs : fs.readResolution sid with
      | some c =>
        left
        exact ⟨⟨sid, "completed", "finalized", some (.data c), none, "unknown",
          some "unknown"⟩, by simp [get_status, hr, hs],
          Or.inr (Or.inl ⟨rfl, rfl⟩)⟩
      | none =>
        right
        simp [get_status, hr, hs]
  · intro c h
    simp [get_status, Registry.find, h]
  · intro hwf sid' tc t₁ t₂ env sid₀ rec₀ hfind
    by_cases he : sid₀ = sid'
    · subst he
      rw [run_flow_background_find_self] at hfind
      cases hfind
      exact ⟨fun _ => rfl, fun hf => by cases hf⟩
    · rw [run_flow_background_find_other sid' tc t₁ t₂ env reg fs he] at hfind
      exact hwf sid₀ rec₀ hfind

/-- C6 witness: the statement at concrete inputs — a registered completed
session answers from the registry, an unknown identifier answers 404, and
after a restart (empty registry) a stored session still answers completed
with its persisted outcome. -/
theorem get_status_layered_witness :
    get_status regCompletedDemo FS.empty "S" =
      .ok ⟨"S", "completed", "finalized", some (.flow (.ok "r" {})), none,
           "T1", some "T2"⟩ ∧
    get_status [] FS.empty "X" = .notFound ∧
    get_status [] fsListDemo "20261012_1003_2222" =
      .ok ⟨"20261012_1003_2222", "completed", "finalized", some (.data "JSON"),
           none, "unknown", some "unknown"⟩ :=
  ⟨(get_status_layered_total_restart_safe regCompletedDemo FS.empty "S").1
      ⟨.completed, "finalized", some (.ok "r" {}), none, "T1", some "T2"⟩ (by decide),
   (get_status_layered_total_restart_safe [] FS.empty "X").2.2.1 rfl rfl,
   (get_status_layered_total_restart_safe [] fsListDemo "20261012_1003_2222").2.2.2.2.1
      "JSON" (by decide)⟩

/-! ## Claim C9 -/

/-- C9 (counterexample): the merged list is not ordered by the creation time
embedded in the identifier.  The active session's identifier embeds 10:00 and
the historical one embeds 10:03, yet the listing puts the active session
first, because the sort key is the recorded `started_at` (the background
run's start, 10:05:30) rather than the identifier-embedded minute. -/
theorem get_sessions_not_ordered_by_embedded_time :
    get_sessions regListDemo fsListDemo =
      [⟨"20261012_1000_1111", "running", "2026-10-12T10:05:30.123456", none⟩,
       ⟨"20261012_1003_2222", "completed", "2026-10-12T10:03:00",
        some "2026-10-12T10:03:00"⟩] ∧
    parseStartedAt "20261012_1000_1111" < parseStartedAt "20261012_1003_2222" :=
  ⟨by decide, (pyStrLt_iff_lt _ _).mp (by decide)⟩

/-- C9 (amended): `get_sessions` returns exactly the active registry entries
merged with the historical store entries (each store directory not active and
holding a persisted outcome), with identifiers pairwise distinct when the
registry keys and store directories are; the result is sorted newest-first by
the recorded `started_at` string — the background run's start time for active
sessions and the identifier-embedded minute for historical ones — not by the
identifier-embedded creation time. -/
theorem get_sessions_merge_dedup_sorted (reg : Registry) (fs : FS)
    (hreg : (reg.map Prod.fst).Nodup) (hfs : fs.dirs.Nodup) :
    (∀ e, e ∈ get_sessions reg fs ↔
      e ∈ sessionsOfRegistry reg ∨ e ∈ historicalSessions reg fs) ∧
    ((get_sessions reg fs).map SessionListEntry.session_id).Nodup ∧
    (get_sessions reg fs).Sorted sessionBefore ∧
    (∀ a b, sessionBefore a b ↔ b.started_at ≤ a.started_at) := by
  have hperm : (get_sessions reg fs).Perm
      (sessionsOfRegistry reg ++ historicalSessions reg fs) :=
    List.perm_insertionSort _ _
  refine ⟨?_, ?_, ?_, sessionBefore_iff⟩
  · intro e
    rw [hperm.mem_iff, List.mem_append]
  · have hids : ((get_sessions reg fs).map SessionListEntry.session_id).Perm
        ((sessionsOfRegistry reg ++ historicalSessions reg fs).map
          SessionListEntry.session_id) := hperm.map _
    refine hids.nodup_iff.mpr ?_
    rw [List.map_append]
    have h₁ : (sessionsOfRegistry reg).map SessionListEntry.session_id =
        reg.map Prod.fst := by
      simp [sessionsOfRegistry, List.map_map]
    have h₂ : (historicalSessions reg fs).map SessionListEntry.session_id =
        fs.dirs.filter fun sid =>
          (reg.find sid).isNone && (fs.readResolution sid).isSome := by
      simp only [historicalSessions, List.map_map]
      show List.map (fun sid => sid) _ = _
      exact List.map_id' _
    rw [h₁, h₂]
    refine List.Nodup.append hreg (hfs.filter _) ?_
    intro a ha hb
    have hsome : (List.lookup a reg).isSome := by
      rw [List.lookup_isSome_iff]
      rcases List.mem_map.mp ha with ⟨p, hp, rfl⟩
      exact ⟨p, hp, by simp⟩
    have hnone := (List.mem_filter.mp hb).2
    simp only [Bool.and_eq_true, Option.isNone_iff_eq_none] at hnone
    rw [show Registry.find reg a = List.lookup a reg from rfl] at hnone
    rw [hnone.1] at hsome
    cases hsome
  · haveI : IsTotal SessionListEntry sessionBefore := ⟨fun a b => by
      rw [sessionBefore_iff, sessionBefore_iff]
      exact (le_total a.started_at b.started_at).symm⟩
    haveI : IsTrans SessionListEntry sessionBefore := ⟨fun a b c hab hbc => by
      rw [sessionBefore_iff] at hab hbc ⊢
      exact le_trans hbc hab⟩
    exact List.sorted_insertionSort sessionBefore _

/-- C9 witness: the amended statement at the concrete registry and store. -/
theorem get_sessions_merge_dedup_sorted_witness :
    ((get_sessions regListDemo fsListDemo).map
        SessionListEntry.session_id).Nodup ∧
    (get_sessions regListDemo fsListDemo).Sorted sessionBefore :=
  ⟨(get_sessions_merge_dedup_sorted regListDemo fsListDemo (by decide)
      (by decide)).2.1,
   (get_sessions_merge_dedup_sorted regListDemo fsListDemo (by decide)
      (by decide)).2.2.1⟩
